import Mathlib

/-!
Shallow embedding of the VOLaM-RAG scoring, uncertainty-tracking and
stakeholder-weighting core, translated from the TypeScript sources:

* `RankingService` (VOLaM composite scoring, sorting, truncation,
  aggregate confidence / average nullness),
* `NullnessService` (per-concept nullness history, implicit observation
  recording, explicit support/refute updates),
* `EmpathyService.calculateEmpathyFit`,
* profile normalization (`normalizeProfile` of the UI hook),
* `AnswerService` (evidence-weighted confidence, empty-evidence answer).

Numbers are modelled as exact rationals (`ℚ`); JavaScript `Map`/object
state is modelled as explicit functional state; the wall-clock timestamps
that the code stores are threaded as an opaque `String` argument.
-/

namespace VolamRag

/-! ### Data model (types/core, ranking.ts) -/

/-- One retrieved passage, as produced by `convertToEvidence` and consumed by
the ranking engine.  The loosely-typed `metadata` bag is not modelled: no
verified operation reads it. -/
structure Evidence where
  id : String
  content : String
  score : ℚ
  cosineScore : ℚ
  nullness : ℚ
  empathyFit : ℚ
  source : String
deriving DecidableEq, Repr

/-- Result record built by `rankBaseline` / `rankWithVOLaM`. -/
structure RankingResult where
  evidence : List Evidence
  answer : String
  confidence : ℚ
  nullness : ℚ
  mode : String
deriving DecidableEq, Repr

/-! ### RankingService (src/unnamed/part_011) -/

/-- `RankingService.calculateVOLaMScore`:
`alpha * cosineScore + beta * (1 - nullness) + gamma * empathyFit`. -/
def calculateVOLaMScore (cosineScore nullness empathyFit alpha beta gamma : ℚ) : ℚ :=
  alpha * cosineScore + beta * (1 - nullness) + gamma * empathyFit

/-- `RankingService.convertToEvidence`: the search score becomes
`cosineScore`, the naive per-evidence nullness is `clamp(1 - score, 0, 1)`,
`empathyFit` starts at `0`. -/
def convertToEvidence (id content source : String) (score : ℚ) : Evidence :=
  { id := id
    content := content
    score := score
    cosineScore := score
    nullness := max 0 (min 1 (1 - score))
    empathyFit := 0
    source := source }

/-- The per-item scoring step of `rankWithVOLaM`'s loop: the empathy fit
computed for the item is stored in `empathyFit` and the composite score is
recomputed with `calculateVOLaMScore`.  The empathy-fit computation (which
in the source goes through `extractContentTags` and the profile store) is
abstracted as the function argument `fit`. -/
def volamScoreEvidence (alpha beta gamma : ℚ) (fit : Evidence → ℚ) (e : Evidence) : Evidence :=
  let f := fit e
  { e with
      empathyFit := f
      score := calculateVOLaMScore e.cosineScore e.nullness f alpha beta gamma }

/-- The sort comparator of `rankWithVOLaM` as a boolean "may come before"
relation: `volamLe a b` holds exactly when `comparator(a, b) ≤ 0`, where
`comparator(a, b)` returns `b.cosineScore - a.cosineScore` if
`|b.score - a.score| < 0.001` and `b.score - a.score` otherwise. -/
def volamLe (a b : Evidence) : Bool :=
  if |b.score - a.score| < (1/1000 : ℚ) then decide (b.cosineScore ≤ a.cosineScore)
  else decide (b.score ≤ a.score)

/-- `RankingService.composeAnswer`: a template over the top 3 items. -/
def composeAnswerRanking (evidence : List Evidence) (query : String) : String :=
  let citations := String.intercalate "\n\n"
    ((evidence.take 3).enum.map fun p => "[" ++ toString (p.1 + 1) ++ "] " ++ p.2.content)
  "Based on the available evidence:\n\n" ++ citations
    ++ "\n\nThis information addresses the query: \"" ++ query ++ "\""

/-- `RankingService.calculateConfidence`: `0` on an empty list, otherwise
`avgScore * (7/10) + maxScore * (3/10)`. -/
def calculateConfidence : List Evidence → ℚ
  | [] => 0
  | e :: es =>
    let scores := (e :: es).map Evidence.score
    let avgScore := scores.sum / scores.length
    let maxScore := scores.foldl max e.score
    avgScore * (7/10) + maxScore * (3/10)

/-- `RankingService.calculateAverageNullness`: `1.0` (maximum uncertainty)
on an empty list, otherwise the mean of the items' nullness. -/
def calculateAverageNullness : List Evidence → ℚ
  | [] => 1
  | e :: es => ((e :: es).map Evidence.nullness).sum / ((e :: es).length : ℚ)

/-- `RankingService.rankWithVOLaM` from the point where the over-fetched
candidate list is in hand: score every candidate, sort with the tie-breaking
comparator (JavaScript's stable sort is modelled by the stable
`List.mergeSort`), build the answer/confidence/average-nullness from the
full sorted list, and truncate the evidence to `k` only in the result. -/
def rankWithVOLaM (query : String) (k : ℕ) (alpha beta gamma : ℚ)
    (fit : Evidence → ℚ) (candidates : List Evidence) : RankingResult :=
  let evidence := candidates.map (volamScoreEvidence alpha beta gamma fit)
  let sorted := evidence.mergeSort volamLe
  { evidence := sorted.take k
    answer := composeAnswerRanking sorted query
    confidence := calculateConfidence sorted
    nullness := calculateAverageNullness sorted
    mode := "volam" }

/-! ### NullnessService (src/unnamed/part_013) -/

/-- One entry of a concept's append-only nullness history. -/
structure NullnessHistoryEntry where
  concept : String
  timestamp : String
  nullness : ℚ
  confidence : ℚ
  evidence_count : ℕ
deriving DecidableEq, Repr

/-- Result record of `updateNullnessExplicit`. -/
structure NullnessUpdateResult where
  oldNullness : ℚ
  newNullness : ℚ
  deltaNullness : ℚ
  concept : String
  timestamp : String
deriving DecidableEq, Repr

/-- The two directions of an explicit nullness adjustment. -/
inductive NullnessAction where
  | support
  | refute
deriving DecidableEq, Repr

/-- The `NullnessService`'s mutable `Map<string, NullnessHistory[]>`,
modelled as a function from concept key to its history list. -/
def NullnessState : Type := String → List NullnessHistoryEntry

/-- The freshly constructed service: an empty history map. -/
def emptyNullnessState : NullnessState := fun _ => []

/-- `NullnessService.extractConcept` (identical code also appears in
`AnswerService.extractConcept`): lowercase, split on single spaces, keep the
first three tokens joined by `_`, then delete every character that is not a
lowercase ASCII letter, digit or underscore. -/
def extractConcept (query : String) : String :=
  let tokens := query.toLower.splitOn " "
  let joined := String.intercalate "_" (tokens.take 3)
  String.mk (joined.toList.filter fun c =>
    (decide ('a' ≤ c) && decide (c ≤ 'z'))
    || (decide ('0' ≤ c) && decide (c ≤ '9'))
    || decide (c = '_'))

/-- `NullnessService.updateNullness` — the implicit observation path: append
a history entry holding the ranking result's aggregate nullness, confidence
and evidence count for the query's derived concept, without any clamping. -/
def updateNullness (now query : String) (results : RankingResult)
    (s : NullnessState) : NullnessState :=
  let concept := extractConcept query
  let entry : NullnessHistoryEntry :=
    { concept := concept
      timestamp := now
      nullness := results.nullness
      confidence := results.confidence
      evidence_count := results.evidence.length }
  fun c => if c = concept then s c ++ [entry] else s c

/-- `NullnessService.getNullnessHistory`. -/
def getNullnessHistory (s : NullnessState) (concept : String) : List NullnessHistoryEntry :=
  s concept

/-- `NullnessService.getCurrentNullness`: the last history entry's nullness,
or the default `0.5` if the concept has no history. -/
def getCurrentNullness (s : NullnessState) (concept : String) : ℚ :=
  match (getNullnessHistory s concept).getLast? with
  | some e => e.nullness
  | none => 1/2

/-- `NullnessService.updateNullnessExplicit` — the explicit support/refute
update.  The source has no `timeDelta` parameter: it fixes
`const timeDelta = 1.0` (with a TODO to compute real elapsed time), so the
decay factor is `lambda ^ 1`.  The impact `k * evidenceStrength * decay` is
subtracted for `support`, added for `refute`, the result is clamped to
`[0, 1]` and appended to the history together with `confidence = 1 - new`. -/
def updateNullnessExplicit (now concept : String) (action : NullnessAction)
    (evidenceStrength k lambda : ℚ) (s : NullnessState) :
    NullnessUpdateResult × NullnessState :=
  let history := getNullnessHistory s concept
  let currentNullness :=
    match history.getLast? with
    | some e => e.nullness
    | none => 1/2
  let timeDelta : ℕ := 1
  let decayFactor := lambda ^ timeDelta
  let evidenceImpact := k * evidenceStrength * decayFactor
  let rawNullness :=
    match action with
    | .support => currentNullness - evidenceImpact
    | .refute => currentNullness + evidenceImpact
  let newNullness := max 0 (min 1 rawNullness)
  let deltaNullness := newNullness - currentNullness
  let entry : NullnessHistoryEntry :=
    { concept := concept
      timestamp := now
      nullness := newNullness
      confidence := 1 - newNullness
      evidence_count := 1 }
  ({ oldNullness := currentNullness
     newNullness := newNullness
     deltaNullness := deltaNullness
     concept := concept
     timestamp := now },
   fun c => if c = concept then s c ++ [entry] else s c)

/-! ### EmpathyService (src/api/src/services/empathy.ts) -/

/-- A named stakeholder-weight profile.  The JavaScript weight object is
modelled as an association list in insertion order. -/
structure EmpathyProfile where
  name : String
  stakeholders : List (String × ℚ)
deriving DecidableEq, Repr

/-- The service's loaded profile store (`this.profiles`). -/
def EmpathyProfiles : Type := List (String × EmpathyProfile)

/-- Content tags extracted for one evidence item. -/
structure ContentTags where
  stakeholders : List String
  topics : List String
  domain : String
deriving DecidableEq, Repr

/-- JavaScript object property lookup over an association-list model. -/
def lookupProp {β : Type} (m : List (String × β)) (key : String) : Option β :=
  (m.find? fun p => p.1 == key).map Prod.snd

/-- Character-level helper for the regex replacement `\s+` → `_`: each
maximal run of whitespace becomes a single underscore (`prevWs` records
whether the previous character was part of a whitespace run). -/
def collapseWsAux : Bool → List Char → List Char
  | _, [] => []
  | prevWs, c :: rest =>
    if c.isWhitespace then
      if prevWs then collapseWsAux true rest
      else '_' :: collapseWsAux true rest
    else c :: collapseWsAux false rest

/-- `stakeholder.toLowerCase().replace(/\s+/g, '_')`: lowercase character by
character, then collapse whitespace runs to underscores. -/
def normalizedStakeholderTag (s : String) : String :=
  String.mk (collapseWsAux false (s.toList.map Char.toLower))

/-- The matching loop of `calculateEmpathyFit`: fold over the tagged
stakeholders, and for each one whose normalized form maps to a *truthy*
weight in the profile (`if (profile.stakeholders[normalizedStakeholder])`,
so a stored weight of `0` does not match), accumulate the weight and bump
the matched count. -/
def stakeholderStep (profile : EmpathyProfile) (acc : ℚ × ℕ) (stakeholder : String) :
    ℚ × ℕ :=
  let norm := normalizedStakeholderTag stakeholder
  match lookupProp profile.stakeholders norm with
  | some w => if w = 0 then acc else (acc.1 + w, acc.2 + 1)
  | none => acc

/-- The `(totalFit, matchedStakeholders)` accumulation of
`calculateEmpathyFit`'s loop. -/
def stakeholderMatch (profile : EmpathyProfile) (tags : List String) : ℚ × ℕ :=
  tags.foldl (stakeholderStep profile) (0, 0)

/-- `this.profiles[profileName] || this.profiles.default`. -/
def resolveEmpathyProfile (profiles : EmpathyProfiles) (profileName : String) :
    Option EmpathyProfile :=
  (lookupProp profiles profileName).orElse fun _ => lookupProp profiles "default"

/-- `EmpathyService.calculateEmpathyFit`.  `none` models the TypeError the
source would throw if neither `profileName` nor `"default"` is a loaded
profile and the stakeholder tag list is non-empty (the profile is resolved
first in the source but only dereferenced after the empty-tags check). -/
def calculateEmpathyFit (profiles : EmpathyProfiles) (contentTags : ContentTags)
    (profileName : String) : Option ℚ :=
  if contentTags.stakeholders.isEmpty then some (1/2)
  else
    match resolveEmpathyProfile profiles profileName with
    | none => none
    | some profile =>
      let m := stakeholderMatch profile contentTags.stakeholders
      if m.2 = 0 then some (1/5)
      else
        let avgFit := m.1 / (m.2 : ℚ)
        let stakeholderBonus := min ((m.2 : ℚ) * (1/10)) (3/10)
        some (min (avgFit + stakeholderBonus) 1)

/-- The empathy-fit computation as claim C6 words it, for comparison with
the source: every tagged stakeholder *present as a key* in the profile's
weight map counts as matched (its weight accumulated even when it is `0`),
with the same neutral/low fallbacks and the same averaging-plus-bonus
formula. -/
def claimEmpathyFit (profiles : EmpathyProfiles) (contentTags : ContentTags)
    (profileName : String) : Option ℚ :=
  if contentTags.stakeholders.isEmpty then some (1/2)
  else
    match resolveEmpathyProfile profiles profileName with
    | none => none
    | some profile =>
      let matchedWeights :=
        contentTags.stakeholders.filterMap fun s => lookupProp profile.stakeholders s
      if matchedWeights.length = 0 then some (1/5)
      else
        some (min (matchedWeights.sum / (matchedWeights.length : ℚ)
          + min ((matchedWeights.length : ℚ) * (1/10)) (3/10)) 1)

/-! ### Profile normalization (src/unnamed/part_000, useEmpathyProfile hook) -/

/-- The hard-coded `DEFAULT_PROFILE` of the hook. -/
def DEFAULT_PROFILE : List (String × ℚ) :=
  [("general_public", 2/5), ("experts", 3/10), ("policymakers", 1/5),
   ("affected_communities", 1/10)]

/-- `normalizeProfile`: divide every weight by the total; if the total is
`0`, substitute `DEFAULT_PROFILE`. -/
def normalizeProfile (profile : List (String × ℚ)) : List (String × ℚ) :=
  let total := (profile.map Prod.snd).sum
  if total = 0 then DEFAULT_PROFILE
  else profile.map fun p => (p.1, p.2 / total)

/-! ### AnswerService (src/api/src/services/answer.ts) -/

/-- One citation record. -/
structure Citation where
  id : String
  content : String
  source : String
  score : ℚ
  index : ℕ
  quotedText : String
deriving DecidableEq, Repr

/-- The `metadata` record of an `AnswerComposition`. -/
structure AnswerMetadata where
  evidenceCount : ℕ
  avgScore : ℚ
  avgNullness : ℚ
  synthesisMethod : String
deriving DecidableEq, Repr

/-- The answer composition returned by `AnswerService.composeAnswer`. -/
structure AnswerComposition where
  answer : String
  citations : List Citation
  confidence : ℚ
  rationale : String
  metadata : AnswerMetadata
deriving DecidableEq, Repr

/-- `AnswerService.composeEmptyAnswer`, returned by `composeAnswer` whenever
the request's evidence list is empty (`if (evidence.length === 0)`). -/
def composeEmptyAnswer (query : String) : AnswerComposition :=
  { answer := "I don\x27t have sufficient evidence to answer the query: \"" ++ query
      ++ "\". Please try rephrasing your question or providing more context."
    citations := []
    confidence := 0
    rationale := "No evidence was found matching the query criteria."
    metadata :=
      { evidenceCount := 0
        avgScore := 0
        avgNullness := 1/2
        synthesisMethod := "empty-response" } }

/-- `AnswerService.calculateEvidenceConfidence`: the evidence-score-weighted
average of per-item certainty `1 - nullness`, with `0` returned for an empty
list or a non-positive total weight. -/
def calculateEvidenceConfidence (evidence : List Evidence) : ℚ :=
  if evidence.length = 0 then 0
  else
    let weightedConfidence := (evidence.map fun e => e.score * (1 - e.nullness)).sum
    let totalWeight := (evidence.map Evidence.score).sum
    if 0 < totalWeight then weightedConfidence / totalWeight else 0

/-- `AnswerService.calculateConfidence`: record the ranking result against
the query's concept (the implicit observation), read the tracker's current
concept nullness back, and clamp
`(1 - conceptNullness) * evidenceConfidence` to `[0, 1]`.  Returns the
confidence together with the updated tracker state. -/
def answerCalculateConfidence (now query : String) (evidence : List Evidence)
    (rankingResult : RankingResult) (s : NullnessState) : ℚ × NullnessState :=
  let s1 := updateNullness now query rankingResult s
  let concept := extractConcept query
  let conceptNullness := getCurrentNullness s1 concept
  let evidenceConfidence := calculateEvidenceConfidence evidence
  let combinedConfidence := (1 - conceptNullness) * evidenceConfidence
  (max 0 (min 1 combinedConfidence), s1)

/-! ### Statement-side definitions -/

/-- The ordering relation claim C2 asserts between items of the returned
list: both in score order when the scores differ by at least `0.001`, and
in cosine order when they differ by less than `0.001`. -/
def tieBreakOrdered (a b : Evidence) : Prop :=
  if |a.score - b.score| < (1/1000 : ℚ) then b.cosineScore ≤ a.cosineScore
  else b.score ≤ a.score

/-- The explicit nullness update as claim C3 words it, with `timeDelta` an
actual parameter of the update: `decay = lambda ^ timeDelta`,
`impact = k * evidenceStrength * decay`, subtracted for support and added
for refute, clamped to `[0, 1]`; returns `(old, new, delta)`.  For
comparison with `updateNullnessExplicit`, whose `timeDelta` is fixed at
`1.0` in the source. -/
def claimApplyEvidence (old : ℚ) (action : NullnessAction)
    (evidenceStrength k lambda : ℚ) (timeDelta : ℕ) : ℚ × ℚ × ℚ :=
  let decay := lambda ^ timeDelta
  let impact := k * evidenceStrength * decay
  let raw :=
    match action with
    | .support => old - impact
    | .refute => old + impact
  let new := max 0 (min 1 raw)
  (old, new, new - old)

/-- Claim C4's invariant: every nullness value stored in any concept's
history lies in `[0, 1]`. -/
def stateInRange (s : NullnessState) : Prop :=
  ∀ c : String, ∀ e ∈ s c, 0 ≤ e.nullness ∧ e.nullness ≤ 1

/-! ### Concrete fixtures for counterexamples and witnesses -/

/-- Candidate A: post-scoring score `0.5`, cosine `0.9`. -/
def cexA : Evidence :=
  { id := "A", content := "", score := 0, cosineScore := 9/10, nullness := 1/2,
    empathyFit := 0, source := "" }

/-- Candidate B: post-scoring score `0.5005`, cosine `0.1`. -/
def cexB : Evidence :=
  { id := "B", content := "", score := 0, cosineScore := 1/10, nullness := 999/2000,
    empathyFit := 0, source := "" }

/-- Candidate C: post-scoring score `0.4995`, cosine `0.95`. -/
def cexC : Evidence :=
  { id := "C", content := "", score := 0, cosineScore := 19/20, nullness := 1001/2000,
    empathyFit := 0, source := "" }

/-- A ranking result carrying an out-of-range aggregate nullness `1.5`,
as an undisciplined caller of the implicit observation path could supply. -/
def badResult : RankingResult :=
  { evidence := [], answer := "", confidence := 0, nullness := 3/2, mode := "volam" }

/-- A ranking result carrying an in-range aggregate nullness `0.25`. -/
def goodResult : RankingResult :=
  { evidence := [], answer := "", confidence := 1/2, nullness := 1/4, mode := "volam" }

/-- A tracker state whose concept `"c0"` has current nullness `0.1`. -/
def exampleState : NullnessState := fun c =>
  if c = "c0" then
    [{ concept := "c0", timestamp := "t0", nullness := 1/10, confidence := 9/10,
       evidence_count := 1 }]
  else []

/-- A profile store whose default profile carries a stakeholder key `"a"`
with stored weight `0`. -/
def zeroWeightProfiles : EmpathyProfiles :=
  [("default", { name := "Default Profile", stakeholders := [("a", 0), ("b", 1/2)] })]

/-- Content tags naming exactly the zero-weight stakeholder `"a"`. -/
def zeroWeightTags : ContentTags :=
  { stakeholders := ["a"], topics := [], domain := "general" }

/-- The hard-coded profile store `loadProfiles` falls back to when the
configuration file cannot be read. -/
def fallbackProfiles : EmpathyProfiles :=
  [("default",
    { name := "Default Profile",
      stakeholders := [("general_public", 2/5), ("experts", 3/10),
        ("policymakers", 1/5), ("affected_communities", 1/10)] }),
   ("climate_focused",
    { name := "Climate-Focused Profile",
      stakeholders := [("affected_communities", 2/5), ("environmental_scientists", 3/10),
        ("policymakers", 1/5), ("general_public", 1/10)] })]

/-- Content tags naming the stakeholder `"experts"`. -/
def expertsTags : ContentTags :=
  { stakeholders := ["experts"], topics := [], domain := "general" }

/-- A single evidence item with score `0.5` and nullness `0.25`. -/
def wEv : Evidence :=
  { id := "w", content := "", score := 1/2, cosineScore := 1/2, nullness := 1/4,
    empathyFit := 0, source := "" }


/-! ### Helper lemmas about merging and sorting -/

theorem head?_merge {α : Type} {le : α → α → Bool} {xs ys : List α} {z : α}
    (h : (List.merge xs ys le).head? = some z) :
    xs.head? = some z ∨ ys.head? = some z := by
  match xs, ys with
  | [], ys => right; simpa using h
  | x :: xs, [] => left; simpa using h
  | x :: xs, y :: ys =>
    rw [List.cons_merge_cons] at h
    split at h
    · left; simpa using h
    · right; simpa using h

/-- Merging two lists whose adjacent pairs satisfy a total boolean relation
yields a list whose adjacent pairs satisfy it; unlike `List.sorted_merge`,
no transitivity is required. -/
theorem chain'_merge {α : Type} (le : α → α → Bool)
    (total : ∀ a b, le a b = true ∨ le b a = true) :
    ∀ (xs ys : List α), List.Chain' (fun a b => le a b = true) xs →
      List.Chain' (fun a b => le a b = true) ys →
      List.Chain' (fun a b => le a b = true) (List.merge xs ys le) := by
  intro xs
  induction xs with
  | nil => intro ys _ hy; simpa using hy
  | cons x xs ihx =>
    intro ys
    induction ys with
    | nil => intro hx _; simpa using hx
    | cons y ys ihy =>
      intro hx hy
      rw [List.cons_merge_cons]
      by_cases h : le x y = true
      · rw [if_pos h]
        refine List.chain'_cons'.mpr ⟨?_, ihx (y :: ys) (List.chain'_cons'.mp hx).2 hy⟩
        intro z hz
        rcases head?_merge hz with h1 | h1
        · exact (List.chain'_cons'.mp hx).1 z h1
        · simp only [List.head?_cons, Option.some.injEq] at h1
          subst h1; exact h
      · have hyx := (total x y).resolve_left h
        rw [if_neg h]
        refine List.chain'_cons'.mpr ⟨?_, ihy hx (List.chain'_cons'.mp hy).2⟩
        intro z hz
        rcases head?_merge hz with h1 | h1
        · simp only [List.head?_cons, Option.some.injEq] at h1
          subst h1; exact hyx
        · exact (List.chain'_cons'.mp hy).1 z h1

/-- Adjacent pairs of a `mergeSort` by a total boolean relation satisfy the
relation, even when the relation is not transitive. -/
theorem chain'_mergeSort {α : Type} (le : α → α → Bool)
    (total : ∀ a b, le a b = true ∨ le b a = true) :
    ∀ (l : List α), List.Chain' (fun a b => le a b = true) (l.mergeSort le)
  | [] => by simp
  | [a] => by simp
  | a :: b :: xs => by
    have h1 : (List.splitInTwo ⟨a :: b :: xs, rfl⟩).1.1.length < xs.length + 1 + 1 := by
      simp [List.splitInTwo_fst]; omega
    have h2 : (List.splitInTwo ⟨a :: b :: xs, rfl⟩).2.1.length < xs.length + 1 + 1 := by
      simp [List.splitInTwo_snd]; omega
    rw [List.mergeSort]
    exact chain'_merge le total _ _ (chain'_mergeSort le total _) (chain'_mergeSort le total _)
termination_by l => l.length

theorem mergeSort_two {α : Type} (le : α → α → Bool) (a b : α) :
    [a, b].mergeSort le = if le a b then [a, b] else [b, a] := by
  rw [List.mergeSort]
  simp [List.splitInTwo, List.splitAt_eq]
  by_cases h : le a b
  · simp [h, List.merge]
  · simp [h, List.merge]

theorem mergeSort_three {α : Type} (le : α → α → Bool) (a b c : α) :
    [a, b, c].mergeSort le = List.merge ([a, b].mergeSort le) [c] le := by
  rw [List.mergeSort]
  congr 1 <;> simp [List.splitInTwo, List.splitAt_eq]

theorem volamLe_eq_true_iff (a b : Evidence) : volamLe a b = true ↔ tieBreakOrdered a b := by
  unfold volamLe tieBreakOrdered
  rw [abs_sub_comm]
  split <;> simp

theorem volamLe_total : ∀ a b : Evidence, volamLe a b = true ∨ volamLe b a = true := by
  intro a b
  unfold volamLe
  by_cases h : |b.score - a.score| < (1/1000 : ℚ)
  · rw [if_pos h, if_pos (by rwa [abs_sub_comm])]
    rcases le_total b.cosineScore a.cosineScore with h1 | h1
    · left; exact decide_eq_true h1
    · right; exact decide_eq_true h1
  · rw [if_neg h, if_neg (fun hc => h (by rwa [abs_sub_comm] at hc))]
    rcases le_total b.score a.score with h1 | h1
    · left; exact decide_eq_true h1
    · right; exact decide_eq_true h1

/-! ### Helper lemmas about the nullness tracker -/

theorem updateNullnessExplicit_old (now concept : String) (action : NullnessAction)
    (es k lam : ℚ) (s : NullnessState) :
    (updateNullnessExplicit now concept action es k lam s).1.oldNullness
      = getCurrentNullness s concept := rfl

theorem updateNullnessExplicit_support_new (now concept : String) (es k lam : ℚ)
    (s : NullnessState) :
    (updateNullnessExplicit now concept .support es k lam s).1.newNullness
      = max 0 (min 1 (getCurrentNullness s concept - k * es * lam)) := by
  show max 0 (min 1 (getCurrentNullness s concept - k * es * lam ^ (1 : ℕ))) = _
  rw [pow_one]

theorem updateNullnessExplicit_refute_new (now concept : String) (es k lam : ℚ)
    (s : NullnessState) :
    (updateNullnessExplicit now concept .refute es k lam s).1.newNullness
      = max 0 (min 1 (getCurrentNullness s concept + k * es * lam)) := by
  show max 0 (min 1 (getCurrentNullness s concept + k * es * lam ^ (1 : ℕ))) = _
  rw [pow_one]

theorem updateNullnessExplicit_delta (now concept : String) (action : NullnessAction)
    (es k lam : ℚ) (s : NullnessState) :
    (updateNullnessExplicit now concept action es k lam s).1.deltaNullness
      = (updateNullnessExplicit now concept action es k lam s).1.newNullness
        - getCurrentNullness s concept := rfl

theorem updateNullnessExplicit_state (now concept : String) (action : NullnessAction)
    (es k lam : ℚ) (s : NullnessState) (c : String) :
    (updateNullnessExplicit now concept action es k lam s).2 c
      = if c = concept then
          s c ++ [({ concept := concept
                     timestamp := now
                     nullness := (updateNullnessExplicit now concept action es k lam s).1.newNullness
                     confidence := 1 - (updateNullnessExplicit now concept action es k lam s).1.newNullness
                     evidence_count := 1 } : NullnessHistoryEntry)]
        else s c := rfl

theorem newNullness_mem_Icc (now concept : String) (action : NullnessAction)
    (es k lam : ℚ) (s : NullnessState) :
    0 ≤ (updateNullnessExplicit now concept action es k lam s).1.newNullness
    ∧ (updateNullnessExplicit now concept action es k lam s).1.newNullness ≤ 1 := by
  cases action
  · rw [updateNullnessExplicit_support_new]
    exact ⟨le_max_left 0 _, max_le (by norm_num) (min_le_left 1 _)⟩
  · rw [updateNullnessExplicit_refute_new]
    exact ⟨le_max_left 0 _, max_le (by norm_num) (min_le_left 1 _)⟩

/-! ### Helper lemmas about the empathy service -/

theorem lookupProp_mem_snd {β : Type} {m : List (String × β)} {key : String} {w : β}
    (h : lookupProp m key = some w) : w ∈ m.map Prod.snd := by
  unfold lookupProp at h
  rw [Option.map_eq_some'] at h
  obtain ⟨p, hp, rfl⟩ := h
  exact List.mem_map_of_mem Prod.snd (List.mem_of_find?_eq_some hp)

/-- The matching fold only ever adds weights drawn from the profile, so a
profile with non-negative weights keeps the accumulated total
non-negative. -/
theorem stakeholderFold_nonneg (profile : EmpathyProfile)
    (hw : ∀ w ∈ profile.stakeholders.map Prod.snd, 0 ≤ w) :
    ∀ (tags : List String) (acc : ℚ × ℕ), 0 ≤ acc.1 →
      0 ≤ (tags.foldl (stakeholderStep profile) acc).1 := by
  intro tags
  induction tags with
  | nil => intro acc h; exact h
  | cons t ts ih =>
    intro acc h
    rw [List.foldl_cons]
    apply ih
    simp only [stakeholderStep]
    cases hl : lookupProp profile.stakeholders (normalizedStakeholderTag t) with
    | none => exact h
    | some w =>
      show 0 ≤ (if w = 0 then acc else (acc.1 + w, acc.2 + 1)).1
      by_cases hw0 : w = 0
      · rw [if_pos hw0]
        exact h
      · rw [if_neg hw0]
        exact add_nonneg h (hw w (lookupProp_mem_snd hl))

/-! ### Claim theorems -/

/-- C1: every evidence item scored in VOLaM mode carries the composite
score `alpha*cosineScore + beta*(1 - nullness) + gamma*empathyFit`, and at
cosine `0.85`, nullness `0.15`, empathy fit `0.9` with weights
`(0.6, 0.3, 0.1)` the score is `0.855`. -/
theorem volam_score_formula :
    (∀ (alpha beta gamma : ℚ) (fit : Evidence → ℚ) (e : Evidence),
        (volamScoreEvidence alpha beta gamma fit e).score
          = alpha * (volamScoreEvidence alpha beta gamma fit e).cosineScore
            + beta * (1 - (volamScoreEvidence alpha beta gamma fit e).nullness)
            + gamma * (volamScoreEvidence alpha beta gamma fit e).empathyFit)
    ∧ (∀ (query : String) (k : ℕ) (alpha beta gamma : ℚ) (fit : Evidence → ℚ)
        (candidates : List Evidence),
        ∀ e ∈ (rankWithVOLaM query k alpha beta gamma fit candidates).evidence,
          e.score = alpha * e.cosineScore + beta * (1 - e.nullness) + gamma * e.empathyFit)
    ∧ calculateVOLaMScore 0.85 0.15 0.9 0.6 0.3 0.1 = 0.855 := by
  refine ⟨?_, ?_, by norm_num [calculateVOLaMScore]⟩
  · intro alpha beta gamma fit e
    rfl
  · intro query k alpha beta gamma fit candidates e he
    have h1 : e ∈ (candidates.map (volamScoreEvidence alpha beta gamma fit)).mergeSort volamLe :=
      List.take_subset k _ he
    rw [List.mem_mergeSort] at h1
    obtain ⟨x, _, rfl⟩ := List.mem_map.mp h1
    rfl

/-- C10: a ranking over an empty candidate set reports average nullness
exactly `1` (maximum uncertainty) and confidence exactly `0`, while the
default for a concept unknown to the nullness tracker is `0.5`. -/
theorem empty_ranking_aggregates :
    (∀ (query : String) (k : ℕ) (alpha beta gamma : ℚ) (fit : Evidence → ℚ),
        (rankWithVOLaM query k alpha beta gamma fit []).nullness = 1
        ∧ (rankWithVOLaM query k alpha beta gamma fit []).confidence = 0)
    ∧ calculateAverageNullness [] = 1
    ∧ calculateConfidence [] = 0
    ∧ (∀ concept : String, getCurrentNullness emptyNullnessState concept = 1/2)
    ∧ (1 : ℚ) ≠ 1/2 := by
  refine ⟨?_, rfl, rfl, ?_, by norm_num⟩
  · intro query k alpha beta gamma fit
    constructor <;> simp [rankWithVOLaM, calculateAverageNullness, calculateConfidence]
  · intro concept
    rfl

/-- C9: composing an answer from an empty evidence list yields confidence
exactly `0`, an empty citations list, a rationale noting that no evidence
was found, and a non-empty templated answer string containing the query
text. -/
theorem empty_evidence_answer :
    ∀ query : String,
      (composeEmptyAnswer query).confidence = 0
      ∧ (composeEmptyAnswer query).citations = []
      ∧ (composeEmptyAnswer query).answer
          = "I don\x27t have sufficient evidence to answer the query: \"" ++ query
            ++ "\". Please try rephrasing your question or providing more context."
      ∧ (composeEmptyAnswer query).answer ≠ ""
      ∧ (composeEmptyAnswer query).rationale
          = "No evidence was found matching the query criteria." := by
  intro query
  refine ⟨rfl, rfl, rfl, ?_, rfl⟩
  intro h
  have hlen := congrArg String.length h
  simp [composeEmptyAnswer, String.length_append] at hlen
  exact absurd hlen.1.1 (by decide)

/-- C2 (counterexample): the comparator is not transitive, so the claimed
pairwise ordering — any two returned items are in score order unless their
scores differ by less than `0.001`, in which case the higher-cosine item
comes first — fails on a concrete three-candidate set whose constraints are
cyclic (scores `0.5`, `0.5005`, `0.4995` with cosines `0.9`, `0.1`,
`0.95`): the returned order `C, A, B` has `C` before `B` although their
score gap is exactly `0.001` and `B`'s score is higher. -/
theorem volam_order_pairwise_counterexample :
    ¬ List.Pairwise tieBreakOrdered
        ((rankWithVOLaM "q" 3 0 1 0 (fun _ => 0) [cexA, cexB, cexC]).evidence) := by
  have ha : volamScoreEvidence 0 1 0 (fun _ => 0) cexA
      = Evidence.mk "A" "" (1/2) (9/10) (1/2) 0 "" := by
    norm_num [volamScoreEvidence, calculateVOLaMScore, cexA]
  have hb : volamScoreEvidence 0 1 0 (fun _ => 0) cexB
      = Evidence.mk "B" "" (1001/2000) (1/10) (999/2000) 0 "" := by
    norm_num [volamScoreEvidence, calculateVOLaMScore, cexB]
  have hc : volamScoreEvidence 0 1 0 (fun _ => 0) cexC
      = Evidence.mk "C" "" (999/2000) (19/20) (1001/2000) 0 "" := by
    norm_num [volamScoreEvidence, calculateVOLaMScore, cexC]
  have hAB : volamLe (Evidence.mk "A" "" (1/2) (9/10) (1/2) 0 "")
      (Evidence.mk "B" "" (1001/2000) (1/10) (999/2000) 0 "") = true := by
    simp only [volamLe]
    rw [if_pos (by rw [abs_lt]; constructor <;> norm_num)]
    simp only [decide_eq_true_eq]
    norm_num
  have hAC : volamLe (Evidence.mk "A" "" (1/2) (9/10) (1/2) 0 "")
      (Evidence.mk "C" "" (999/2000) (19/20) (1001/2000) 0 "") = false := by
    simp only [volamLe]
    rw [if_pos (by rw [abs_lt]; constructor <;> norm_num)]
    simp only [decide_eq_false_iff_not]
    norm_num
  have hev : (rankWithVOLaM "q" 3 0 1 0 (fun _ => 0) [cexA, cexB, cexC]).evidence
      = [Evidence.mk "C" "" (999/2000) (19/20) (1001/2000) 0 "",
         Evidence.mk "A" "" (1/2) (9/10) (1/2) 0 "",
         Evidence.mk "B" "" (1001/2000) (1/10) (999/2000) 0 ""] := by
    show (([cexA, cexB, cexC].map (volamScoreEvidence 0 1 0 fun _ => 0)).mergeSort
        volamLe).take 3 = _
    rw [List.map_cons, List.map_cons, List.map_cons, List.map_nil, ha, hb, hc,
      mergeSort_three, mergeSort_two, hAB, if_pos rfl,
      List.cons_merge_cons, hAC, if_neg (by simp), List.merge_right]
    rfl
  rw [hev]
  intro h
  have hCB := (List.pairwise_cons.mp h).1
      (Evidence.mk "B" "" (1001/2000) (1/10) (999/2000) 0 "") (by simp)
  simp only [tieBreakOrdered] at hCB
  rw [if_neg (by rw [not_lt, le_abs]; right; norm_num)] at hCB
  norm_num at hCB

/-- C2 (amended): the VOLaM ranking truncates to `k` only after sorting the
full scored candidate set, and the sorted list satisfies the score /
tie-break ordering between *adjacent* items: an adjacent pair with score gap
at least `0.001` is in non-increasing score order, and one with a smaller
gap is in non-increasing cosine order.  (The comparator is not transitive,
so the ordering cannot in general hold between every pair of returned
items; see the counterexample.) -/
theorem volam_rank_sort_truncate :
    ∀ (query : String) (k : ℕ) (alpha beta gamma : ℚ) (fit : Evidence → ℚ)
      (candidates : List Evidence),
      (rankWithVOLaM query k alpha beta gamma fit candidates).evidence
        = ((candidates.map (volamScoreEvidence alpha beta gamma fit)).mergeSort volamLe).take k
      ∧ List.Chain' tieBreakOrdered
          ((candidates.map (volamScoreEvidence alpha beta gamma fit)).mergeSort volamLe)
      ∧ List.Chain' tieBreakOrdered
          ((rankWithVOLaM query k alpha beta gamma fit candidates).evidence) := by
  intro query k alpha beta gamma fit candidates
  have hchain := chain'_mergeSort volamLe volamLe_total
      (candidates.map (volamScoreEvidence alpha beta gamma fit))
  have hchain' := hchain.imp fun a b h => (volamLe_eq_true_iff a b).mp h
  exact ⟨rfl, hchain', hchain'.take k⟩

/-- C3 (counterexample): the source's explicit update has no `timeDelta`
parameter — it fixes `timeDelta = 1.0` — so its result differs from the
claimed `decay = lambda ^ timeDelta` formula at `timeDelta = 0`: from the
default starting nullness `0.5` with `action = refute`,
`evidenceStrength = 1`, `k = 0.1`, `lambda = 0.5`, the code returns new
nullness `0.55` (decay `0.5`) while the claimed formula at `timeDelta = 0`
gives `0.6` (decay `1`). -/
theorem explicit_update_timeDelta_counterexample :
    (updateNullnessExplicit "t0" "c" .refute 1 (1/10) (1/2) emptyNullnessState).1.newNullness
      = 11/20
    ∧ (claimApplyEvidence (1/2) .refute 1 (1/10) (1/2) 0).2.1 = 3/5
    ∧ getCurrentNullness emptyNullnessState "c" = 1/2
    ∧ (11/20 : ℚ) ≠ 3/5 := by
  refine ⟨?_, ?_, rfl, by norm_num⟩
  · rw [updateNullnessExplicit_refute_new]
    show max 0 (min 1 ((1/2 : ℚ) + 1/10 * 1 * (1/2))) = 11/20
    norm_num
  · simp only [claimApplyEvidence]
    norm_num

/-- C3 (amended): the explicit update takes no `timeDelta`; the source
fixes `timeDelta = 1.0`, so the decay factor is `lambda` itself and the
impact is `k * evidenceStrength * lambda`, subtracted from the current
nullness for `support` and added for `refute`, clamped to `[0, 1]`; the
result reports the old value, the new value and `delta = new - old`.  In
particular, from starting nullness `0.1` with `action = refute`, `k = 2`,
`evidenceStrength = 1`, `lambda = 1` the new value is exactly `1` and the
returned delta is `0.9`, not `2`. -/
theorem explicit_update_formula :
    (∀ (now concept : String) (evidenceStrength k lambda : ℚ) (s : NullnessState),
      (∀ action,
        (updateNullnessExplicit now concept action evidenceStrength k lambda s).1.oldNullness
          = getCurrentNullness s concept
        ∧ (updateNullnessExplicit now concept action evidenceStrength k lambda s).1.deltaNullness
          = (updateNullnessExplicit now concept action evidenceStrength k lambda s).1.newNullness
            - (updateNullnessExplicit now concept action evidenceStrength k lambda s).1.oldNullness)
      ∧ (updateNullnessExplicit now concept .support evidenceStrength k lambda s).1.newNullness
          = max 0 (min 1 (getCurrentNullness s concept - k * evidenceStrength * lambda))
      ∧ (updateNullnessExplicit now concept .refute evidenceStrength k lambda s).1.newNullness
          = max 0 (min 1 (getCurrentNullness s concept + k * evidenceStrength * lambda)))
    ∧ (updateNullnessExplicit "t1" "c0" .refute 1 2 1 exampleState).1.newNullness = 1
    ∧ (updateNullnessExplicit "t1" "c0" .refute 1 2 1 exampleState).1.deltaNullness = 9/10 := by
  have hcur : getCurrentNullness exampleState "c0" = 1/10 := rfl
  have hnew : (updateNullnessExplicit "t1" "c0" .refute 1 2 1 exampleState).1.newNullness = 1 := by
    rw [updateNullnessExplicit_refute_new, hcur]
    norm_num
  refine ⟨?_, hnew, ?_⟩
  · intro now concept evidenceStrength k lambda s
    exact ⟨fun action => ⟨rfl, rfl⟩,
      updateNullnessExplicit_support_new now concept evidenceStrength k lambda s,
      updateNullnessExplicit_refute_new now concept evidenceStrength k lambda s⟩
  · rw [updateNullnessExplicit_delta, hnew, hcur]
    norm_num

/-- C4 (counterexample): the implicit observation path does *not* clamp —
recording a ranking result whose aggregate nullness is `1.5` stores the
out-of-range value `1.5` in the concept's history, so "every stored value
lies in [0,1] regardless of caller discipline" fails. -/
theorem implicit_observation_unclamped_counterexample :
    ¬ stateInRange (updateNullness "t" "q" badResult emptyNullnessState) := by
  intro h
  have hm : ({ concept := extractConcept "q"
               timestamp := "t"
               nullness := 3/2
               confidence := 0
               evidence_count := 0 } : NullnessHistoryEntry)
      ∈ (updateNullness "t" "q" badResult emptyNullnessState) (extractConcept "q") := by
    simp [updateNullness, emptyNullnessState, badResult]
  have h2 := (h (extractConcept "q") _ hm).2
  norm_num at h2

/-- C4 (amended): the explicit update always clamps, so its returned and
stored values lie in `[0, 1]` for every input and starting state; the
implicit observation path stores the caller-supplied aggregate nullness
without clamping, so it preserves the all-stored-values-in-range invariant
only when that input value is itself in `[0, 1]`. -/
theorem nullness_values_in_range :
    (∀ (now concept : String) (action : NullnessAction) (evidenceStrength k lambda : ℚ)
        (s : NullnessState),
        (0 ≤ (updateNullnessExplicit now concept action evidenceStrength k lambda s).1.newNullness
          ∧ (updateNullnessExplicit now concept action evidenceStrength k lambda s).1.newNullness ≤ 1)
        ∧ (stateInRange s →
            stateInRange (updateNullnessExplicit now concept action evidenceStrength k lambda s).2))
    ∧ (∀ (now query : String) (results : RankingResult) (s : NullnessState),
        stateInRange s → 0 ≤ results.nullness → results.nullness ≤ 1 →
        stateInRange (updateNullness now query results s)) := by
  constructor
  · intro now concept action evidenceStrength k lambda s
    refine ⟨newNullness_mem_Icc now concept action evidenceStrength k lambda s, ?_⟩
    intro hs c e he
    rw [updateNullnessExplicit_state] at he
    by_cases hc : c = concept
    · rw [if_pos hc, List.mem_append, List.mem_singleton] at he
      rcases he with he | he
      · exact hs c e he
      · subst he
        exact newNullness_mem_Icc now concept action evidenceStrength k lambda s
    · rw [if_neg hc] at he
      exact hs c e he
  · intro now query results s hs h0 h1 c e he
    simp only [updateNullness] at he
    by_cases hc : c = extractConcept query
    · rw [if_pos hc, List.mem_append, List.mem_singleton] at he
      rcases he with he | he
      · exact hs c e he
      · subst he
        exact ⟨h0, h1⟩
    · rw [if_neg hc] at he
      exact hs c e he

/-- C4 (witness): the amended bounds theorem applied concretely — one
explicit refute update and one in-range implicit observation, both from the
empty tracker state, leave every stored value in `[0, 1]`. -/
theorem nullness_values_in_range_witness :
    stateInRange (updateNullnessExplicit "t" "c" .refute 1 2 1 emptyNullnessState).2
    ∧ stateInRange (updateNullness "t" "q" goodResult emptyNullnessState) := by
  have hempty : stateInRange emptyNullnessState := by
    intro c e he
    simp [emptyNullnessState] at he
  exact ⟨(nullness_values_in_range.1 "t" "c" .refute 1 2 1 emptyNullnessState).2 hempty,
    nullness_values_in_range.2 "t" "q" goodResult emptyNullnessState hempty
      (by norm_num [goodResult]) (by norm_num [goodResult])⟩

/-- C5: from the same starting nullness and identical
`(evidenceStrength, k, lambda)`, a support update and a refute update
produce deltas of equal magnitude and opposite sign, provided the impact is
non-negative and neither direction is clamped at the bounds. -/
theorem support_refute_symmetry :
    ∀ (now concept : String) (evidenceStrength k lambda : ℚ) (s : NullnessState),
      0 ≤ getCurrentNullness s concept - k * evidenceStrength * lambda →
      getCurrentNullness s concept - k * evidenceStrength * lambda ≤ 1 →
      0 ≤ getCurrentNullness s concept + k * evidenceStrength * lambda →
      getCurrentNullness s concept + k * evidenceStrength * lambda ≤ 1 →
      (updateNullnessExplicit now concept .support evidenceStrength k lambda s).1.deltaNullness
        = -(updateNullnessExplicit now concept .refute evidenceStrength k lambda s).1.deltaNullness
      ∧ |(updateNullnessExplicit now concept .support evidenceStrength k lambda s).1.deltaNullness|
        = |(updateNullnessExplicit now concept .refute evidenceStrength k lambda s).1.deltaNullness| := by
  intro now concept evidenceStrength k lambda s hs0 hs1 hr0 hr1
  have hs : (updateNullnessExplicit now concept .support evidenceStrength k lambda s).1.deltaNullness
      = -(k * evidenceStrength * lambda) := by
    rw [updateNullnessExplicit_delta, updateNullnessExplicit_support_new,
      min_eq_right hs1, max_eq_right hs0]
    ring
  have hr : (updateNullnessExplicit now concept .refute evidenceStrength k lambda s).1.deltaNullness
      = k * evidenceStrength * lambda := by
    rw [updateNullnessExplicit_delta, updateNullnessExplicit_refute_new,
      min_eq_right hr1, max_eq_right hr0]
    ring
  rw [hs, hr, abs_neg]
  exact ⟨rfl, rfl⟩

/-- C5 (witness): the symmetry theorem applied at the default parameters
`k = 0.1`, `lambda = 0.9`, strength `1` from the empty state (starting
nullness `0.5`), where no clamping occurs. -/
theorem support_refute_symmetry_witness :
    (updateNullnessExplicit "t" "c" .support 1 (1/10) (9/10) emptyNullnessState).1.deltaNullness
      = -(updateNullnessExplicit "t" "c" .refute 1 (1/10) (9/10) emptyNullnessState).1.deltaNullness
    ∧ |(updateNullnessExplicit "t" "c" .support 1 (1/10) (9/10) emptyNullnessState).1.deltaNullness|
      = |(updateNullnessExplicit "t" "c" .refute 1 (1/10) (9/10) emptyNullnessState).1.deltaNullness| := by
  have hcur : getCurrentNullness emptyNullnessState "c" = 1/2 := rfl
  exact support_refute_symmetry "t" "c" 1 (1/10) (9/10) emptyNullnessState
    (by rw [hcur]; norm_num) (by rw [hcur]; norm_num)
    (by rw [hcur]; norm_num) (by rw [hcur]; norm_num)

/-- C6 (counterexample): the matching test is a JavaScript truthiness check
(`if (profile.stakeholders[normalizedStakeholder])`), not key presence: a
tagged stakeholder that is present as a key with weight `0` is *not*
counted as matched.  With a profile `{a: 0, b: 0.5}` and tags `["a"]` the
source returns `0.2` (no match), while the claimed
"present as a key" policy yields `min(0/1 + 0.1, 1) = 0.1`. -/
theorem empathy_fit_zero_weight_counterexample :
    calculateEmpathyFit zeroWeightProfiles zeroWeightTags "default" = some (1/5)
    ∧ claimEmpathyFit zeroWeightProfiles zeroWeightTags "default" = some (1/10)
    ∧ (1/5 : ℚ) ≠ 1/10 := by
  refine ⟨?_, ?_, by norm_num⟩
  · simp +decide [calculateEmpathyFit, resolveEmpathyProfile, lookupProp, zeroWeightProfiles,
      zeroWeightTags, stakeholderMatch, stakeholderStep, List.find?]
  · simp +decide [claimEmpathyFit, resolveEmpathyProfile, lookupProp, zeroWeightProfiles,
      zeroWeightTags, List.find?]
    norm_num

/-- C6 (amended): the empathy fit returns `0.5` when the tagged stakeholder
list is empty; otherwise it resolves `profileName` (falling back to the
profile named "default" when unknown), accumulates the profile weight of
each tagged stakeholder whose normalized form maps to a *non-zero* weight
in the profile's weight map, returns `0.2` when zero stakeholders matched,
and otherwise `min(sum/matched + min(matched*0.1, 0.3), 1)`; for a profile
with non-negative weights the result always lies in `[0, 1]`. -/
theorem empathy_fit_policy :
    (∀ (profiles : EmpathyProfiles) (profileName : String),
        lookupProp profiles profileName = none →
        resolveEmpathyProfile profiles profileName = lookupProp profiles "default")
    ∧ (∀ (profiles : EmpathyProfiles) (tags : ContentTags) (profileName : String),
        tags.stakeholders = [] →
        calculateEmpathyFit profiles tags profileName = some (1/2))
    ∧ (∀ (profiles : EmpathyProfiles) (tags : ContentTags) (profileName : String)
        (profile : EmpathyProfile),
        tags.stakeholders ≠ [] →
        resolveEmpathyProfile profiles profileName = some profile →
        calculateEmpathyFit profiles tags profileName
          = some (if (stakeholderMatch profile tags.stakeholders).2 = 0 then 1/5
              else min ((stakeholderMatch profile tags.stakeholders).1
                    / ((stakeholderMatch profile tags.stakeholders).2 : ℚ)
                  + min (((stakeholderMatch profile tags.stakeholders).2 : ℚ) * (1/10)) (3/10)) 1))
    ∧ (∀ (profiles : EmpathyProfiles) (tags : ContentTags) (profileName : String)
        (profile : EmpathyProfile) (q : ℚ),
        resolveEmpathyProfile profiles profileName = some profile →
        (∀ w ∈ profile.stakeholders.map Prod.snd, 0 ≤ w) →
        calculateEmpathyFit profiles tags profileName = some q →
        0 ≤ q ∧ q ≤ 1) := by
  have h1 : ∀ (profiles : EmpathyProfiles) (profileName : String),
      lookupProp profiles profileName = none →
      resolveEmpathyProfile profiles profileName = lookupProp profiles "default" := by
    intro profiles profileName h
    rw [resolveEmpathyProfile, h]
    rfl
  have h2 : ∀ (profiles : EmpathyProfiles) (tags : ContentTags) (profileName : String),
      tags.stakeholders = [] →
      calculateEmpathyFit profiles tags profileName = some (1/2) := by
    intro profiles tags profileName h
    rw [calculateEmpathyFit, if_pos (by rw [h]; rfl)]
  have h3 : ∀ (profiles : EmpathyProfiles) (tags : ContentTags) (profileName : String)
      (profile : EmpathyProfile),
      tags.stakeholders ≠ [] →
      resolveEmpathyProfile profiles profileName = some profile →
      calculateEmpathyFit profiles tags profileName
        = some (if (stakeholderMatch profile tags.stakeholders).2 = 0 then 1/5
            else min ((stakeholderMatch profile tags.stakeholders).1
                  / ((stakeholderMatch profile tags.stakeholders).2 : ℚ)
                + min (((stakeholderMatch profile tags.stakeholders).2 : ℚ) * (1/10)) (3/10)) 1) := by
    intro profiles tags profileName profile hne hres
    have hfalse : tags.stakeholders.isEmpty = false := by
      cases htags : tags.stakeholders with
      | nil => exact absurd htags hne
      | cons a l => rfl
    rw [calculateEmpathyFit, if_neg (by rw [hfalse]; simp), hres]
    show (if (stakeholderMatch profile tags.stakeholders).2 = 0 then some ((1 : ℚ)/5)
        else some (min ((stakeholderMatch profile tags.stakeholders).1
              / ((stakeholderMatch profile tags.stakeholders).2 : ℚ)
            + min (((stakeholderMatch profile tags.stakeholders).2 : ℚ) * (1/10)) (3/10)) 1)) = _
    rw [← apply_ite Option.some]
  refine ⟨h1, h2, h3, ?_⟩
  intro profiles tags profileName profile q hres hw hq
  by_cases hempty : tags.stakeholders = []
  · rw [h2 profiles tags profileName hempty, Option.some.injEq] at hq
    subst hq
    norm_num
  · rw [h3 profiles tags profileName profile hempty hres, Option.some.injEq] at hq
    subst hq
    split
    · norm_num
    · rename_i hm
      have htotal : 0 ≤ (stakeholderMatch profile tags.stakeholders).1 :=
        stakeholderFold_nonneg profile hw tags.stakeholders (0, 0) le_rfl
      have hcount : (0 : ℚ) ≤ ((stakeholderMatch profile tags.stakeholders).2 : ℚ) := by
        positivity
      constructor
      · apply le_min _ zero_le_one
        apply add_nonneg (div_nonneg htotal hcount)
        exact le_min (mul_nonneg hcount (by norm_num)) (by norm_num)
      · exact min_le_right _ 1

/-- C6 (witness): the amended policy theorem applied to the hard-coded
fallback profile store and the tag list `["experts"]`: the profile
resolves, its weights are non-negative, the computed fit is
`min(0.3/1 + 0.1, 1) = 0.4`, and the bounds hold at `0.4`. -/
theorem empathy_fit_policy_witness :
    calculateEmpathyFit fallbackProfiles expertsTags "default" = some (2/5)
    ∧ (0 : ℚ) ≤ 2/5 ∧ (2/5 : ℚ) ≤ 1 := by
  have hnorm : normalizedStakeholderTag "experts" = "experts" := by decide
  have hq : calculateEmpathyFit fallbackProfiles expertsTags "default" = some (2/5) := by
    simp +decide [calculateEmpathyFit, resolveEmpathyProfile, lookupProp, fallbackProfiles,
      expertsTags, stakeholderMatch, stakeholderStep, List.find?, hnorm]
    norm_num
  have hres : resolveEmpathyProfile fallbackProfiles "default"
      = some { name := "Default Profile"
               stakeholders := [("general_public", 2/5), ("experts", 3/10),
                 ("policymakers", 1/5), ("affected_communities", 1/10)] } := by
    simp +decide [resolveEmpathyProfile, lookupProp, fallbackProfiles, List.find?]
  refine ⟨hq, empathy_fit_policy.2.2.2 fallbackProfiles expertsTags "default" _ (2/5) hres ?_ hq⟩
  intro w hw
  simp at hw
  rcases hw with rfl | rfl | rfl | rfl <;> norm_num

/-- C7: profile normalization divides every weight by the total, so the
normalized weights sum exactly to `1` (e.g. `{a:0.6, b:0.3, c:0.2, d:0.1}`
normalizes to `{0.5, 0.25, 1/6, 1/12}`), and an all-zero weight map is
replaced by the hard-coded default profile
`{general_public:0.4, experts:0.3, policymakers:0.2,
affected_communities:0.1}` instead of dividing by zero. -/
theorem normalize_profile_policy :
    (∀ profile : List (String × ℚ),
        ((normalizeProfile profile).map Prod.snd).sum = 1
        ∧ ((profile.map Prod.snd).sum = 0 → normalizeProfile profile = DEFAULT_PROFILE)
        ∧ ((profile.map Prod.snd).sum ≠ 0 →
            normalizeProfile profile
              = profile.map fun p => (p.1, p.2 / (profile.map Prod.snd).sum)))
    ∧ normalizeProfile [("a", 6/10), ("b", 3/10), ("c", 2/10), ("d", 1/10)]
        = [("a", 1/2), ("b", 1/4), ("c", 1/6), ("d", 1/12)] := by
  have hzero : ∀ profile : List (String × ℚ), (profile.map Prod.snd).sum = 0 →
      normalizeProfile profile = DEFAULT_PROFILE := by
    intro profile h
    simp only [normalizeProfile]
    rw [if_pos h]
  have hnon : ∀ profile : List (String × ℚ), (profile.map Prod.snd).sum ≠ 0 →
      normalizeProfile profile
        = profile.map fun p => (p.1, p.2 / (profile.map Prod.snd).sum) := by
    intro profile h
    simp only [normalizeProfile]
    rw [if_neg h]
  refine ⟨fun profile => ⟨?_, hzero profile, hnon profile⟩, ?_⟩
  · by_cases h : (profile.map Prod.snd).sum = 0
    · rw [hzero profile h]
      simp [DEFAULT_PROFILE]
      norm_num
    · rw [hnon profile h, List.map_map]
      have hcomp : (Prod.snd ∘ fun p : String × ℚ => (p.1, p.2 / (profile.map Prod.snd).sum))
          = fun p : String × ℚ => p.2 * ((profile.map Prod.snd).sum)⁻¹ := by
        funext p
        simp [div_eq_mul_inv]
      rw [hcomp, List.sum_map_mul_right, mul_inv_cancel₀ h]
  · simp [normalizeProfile]
    norm_num

/-- C7 (witness): normalization of an all-zero map yields the hard-coded
default profile, and a normalized two-entry map sums to `1`. -/
theorem normalize_profile_policy_witness :
    normalizeProfile [("x", (0 : ℚ))] = DEFAULT_PROFILE
    ∧ ((normalizeProfile [("a", (6 : ℚ)/10), ("b", 3/10)]).map Prod.snd).sum = 1 :=
  ⟨(normalize_profile_policy.1 _).2.1 (by simp),
   (normalize_profile_policy.1 _).1⟩

/-- C8: for a non-empty evidence list with positive total score, the Answer
Composer's confidence is
`clamp((1 - conceptNullness) * evidenceConfidence, 0, 1)` where
`evidenceConfidence` is the evidence-score-weighted average
`Σ(score_i * (1 - nullness_i)) / Σ(score_i)` over the per-item heuristic
nullness and `conceptNullness` is the Nullness Tracker's current value for
the query's derived concept at the time of the read (the composition first
records the ranking result's aggregate nullness against that concept, so
the tracked value read back equals `rankingResult.nullness`). -/
theorem answer_confidence_formula :
    ∀ (now query : String) (evidence : List Evidence) (rankingResult : RankingResult)
      (s : NullnessState),
      evidence ≠ [] →
      0 < (evidence.map Evidence.score).sum →
      (answerCalculateConfidence now query evidence rankingResult s).1
        = max 0 (min 1
            ((1 - getCurrentNullness (updateNullness now query rankingResult s)
                (extractConcept query))
              * ((evidence.map fun e => e.score * (1 - e.nullness)).sum
                / (evidence.map Evidence.score).sum)))
      ∧ getCurrentNullness (updateNullness now query rankingResult s) (extractConcept query)
        = rankingResult.nullness := by
  intro now query evidence rankingResult s hne hpos
  have hev : calculateEvidenceConfidence evidence
      = (evidence.map fun e => e.score * (1 - e.nullness)).sum
        / (evidence.map Evidence.score).sum := by
    show (if evidence.length = 0 then 0
        else if 0 < (evidence.map Evidence.score).sum then
          (evidence.map fun e => e.score * (1 - e.nullness)).sum
            / (evidence.map Evidence.score).sum
        else 0) = _
    rw [if_neg (fun h => hne (List.length_eq_zero.mp h)), if_pos hpos]
  constructor
  · show max 0 (min 1
        ((1 - getCurrentNullness (updateNullness now query rankingResult s)
            (extractConcept query))
          * calculateEvidenceConfidence evidence)) = _
    rw [hev]
  · show getCurrentNullness (updateNullness now query rankingResult s)
        (extractConcept query) = _
    unfold getCurrentNullness getNullnessHistory updateNullness
    rw [if_pos rfl, List.getLast?_concat]

/-- C8 (witness): the confidence formula applied to a single evidence item
with score `0.5` and nullness `0.25` and a recorded aggregate nullness of
`0.25`: both hypotheses hold and the read-back concept nullness equals the
recorded `0.25`. -/
theorem answer_confidence_formula_witness :
    (answerCalculateConfidence "t" "q" [wEv] goodResult emptyNullnessState).1
      = max 0 (min 1
          ((1 - getCurrentNullness (updateNullness "t" "q" goodResult emptyNullnessState)
              (extractConcept "q"))
            * (([wEv].map fun e => e.score * (1 - e.nullness)).sum
              / ([wEv].map Evidence.score).sum)))
    ∧ getCurrentNullness (updateNullness "t" "q" goodResult emptyNullnessState)
        (extractConcept "q") = goodResult.nullness :=
  answer_confidence_formula "t" "q" [wEv] goodResult emptyNullnessState
    (by simp) (by norm_num [wEv])

end VolamRag
